import Mathlib

/-
Verification development for the FutureForceAI interview-relay layer.

Shallow embedding of the Next.js API route handlers that form the
session-scoped interview-chat relay and conversation/CV persistence
protocol, together with theorems settling the frozen claims about them.

Modeling conventions, shared by every handler below:
- HTTP statuses are Nat; JSON bodies are Lean structures with Option
  fields for keys that are present only on some paths.
- The JWT-cookie check is modeled by a `TokenResult` argument: `missing`
  (no cookie), `invalid` (jwt.verify throws), `valid userId` (the decoded
  userId).  Request-body parsing and the database connection are assumed
  to succeed; the handlers model everything after that point.
- Falsy string checks in JS (`!session_id`) are modeled as equality with
  the empty string: a missing field and an empty field behave alike.
- MongoDB collections are Lists of records; `findOne` / `findById` are
  `List.find?`; an update by unique key is a `List.map` that rewrites the
  matching record (the schema declares the key unique).
- Each outbound `fetch` to the FastAPI backend is an oracle argument of
  an inductive type enumerating exactly the outcomes the handler
  distinguishes: transport failure (fetch throws), a non-OK status,
  an OK response whose body does not parse as JSON, and an OK JSON body.
-/

namespace FutureForceAI

/-- One chat message, as in ChatMessageSchema (models/Conversation.js):
sender is the string tag "user" or "ai", text the body. -/
structure ChatMessage where
  sender : String
  text : String
deriving DecidableEq

/-- A Conversation record, as in ConversationSchema (models/Conversation.js).
`createdAt` is a numeric timestamp; `user_id` is the owner id compared by
its string form (`user_id.toString()` in the handlers). -/
structure Conversation where
  session_id : String
  user_id : String
  job_role : String
  cv_text : String
  messages : List ChatMessage
  createdAt : Nat
  finished : Bool
deriving DecidableEq

/-- A CV record, as in CVSchema (frontend/models/CV.js).  `userId` is kept
as the string form used in ownership comparisons; timestamps are Nat;
`filePath` is the stored path, "" when unset. -/
structure CVRecord where
  id : String
  userId : String
  filename : String
  originalName : String
  fileSize : Nat
  filePath : String
  contentType : String
  extractedText : String
  uploadedAt : Nat
  lastUsed : Nat
  fileId : String
deriving DecidableEq

/-- Outcome of the token-cookie check shared by every protected handler:
no cookie, jwt.verify failure, or the decoded userId. -/
inductive TokenResult where
  | missing : TokenResult
  | invalid : TokenResult
  | valid : String → TokenResult
deriving DecidableEq

/- ===== Chat Relay: POST /api/interview/chat (app/api/interview/chat/route.js) ===== -/

/-- Body of a chat request: `{ session_id, user_message }`. -/
structure ChatRequest where
  session_id : String
  user_message : String
deriving DecidableEq

/-- Outcomes the chat handler distinguishes for its fetch to the FastAPI
`/api/interview/chat` endpoint:
- `fetchFailed`: fetch throws (backend unreachable);
- `errorStatus s d`: response not ok, status `s`, error detail `d`;
- `okUnparseable`: ok status but `response.json()` throws;
- `okMalformed`: ok JSON body but `data.messages` missing or not an array;
- `okMessages l`: ok JSON body with a messages array `l`. -/
inductive ChatUpstream where
  | fetchFailed : ChatUpstream
  | errorStatus : Nat → String → ChatUpstream
  | okUnparseable : ChatUpstream
  | okMalformed : ChatUpstream
  | okMessages : List ChatMessage → ChatUpstream
deriving DecidableEq

/-- Response of the chat handler: HTTP status, optional `messages` array,
optional `detail` error string. -/
structure ChatResponse where
  status : Nat
  messages : Option (List ChatMessage)
  detail : Option String
deriving DecidableEq

/-- Fallback returned when the upstream JSON body lacks a well-formed
`messages` array (route.js lines 134-146). -/
def chatFallbackBadData : ChatMessage :=
  { sender := "ai"
    text := "I received your message, but there was an issue processing it. Could you please continue?" }

/-- Fallback AI turn appended when the upstream body cannot be parsed as
JSON (route.js lines 161-186). -/
def chatFallbackParseError : ChatMessage :=
  { sender := "ai"
    text := "I received your message, but there was an issue with our system. Let\x27s continue the interview. What skills do you have that are relevant to this position?" }

/-- Fallback AI turn appended when the backend is unreachable
(route.js lines 187-212). -/
def chatFallbackFetchError : ChatMessage :=
  { sender := "ai"
    text := "Thank you for your response. Due to technical difficulties, I\x27m unable to provide a personalized reply, but please continue with the interview. Can you tell me about a challenging project you\x27ve worked on?" }

/-- `Conversation.updateOne({ session_id }, { $set: { messages } })`:
rewrites the messages of the record with the given session id
(session_id carries a unique index). -/
def updateConversationMessages (store : List Conversation) (sid : String)
    (msgs : List ChatMessage) : List Conversation :=
  store.map (fun c => if c.session_id == sid then { c with messages := msgs } else c)

/-- Chat Relay handler (POST in app/api/interview/chat/route.js), following
the source order: body validation, token check, conversation lookup,
ownership check, then the dispatch on the upstream outcome.  `dbWriteOk`
models whether `Conversation.updateOne` succeeds; its failure is caught
and logged, never changing the response.  Returns the response and the
conversation store after the call. -/
def chatPOST (req : ChatRequest) (auth : TokenResult) (store : List Conversation)
    (up : ChatUpstream) (dbWriteOk : Bool) : ChatResponse × List Conversation :=
  if req.session_id = "" then
    ({ status := 400, messages := none, detail := some ("Missing session_id") }, store)
  else if req.user_message = "" then
    ({ status := 400, messages := none, detail := some ("Missing user_message") }, store)
  else
    match auth with
    | TokenResult.missing =>
        ({ status := 401, messages := none, detail := some ("Authentication required") }, store)
    | TokenResult.invalid =>
        ({ status := 401, messages := none, detail := some ("Invalid authentication token") }, store)
    | TokenResult.valid userId =>
        match store.find? (fun c => c.session_id == req.session_id) with
        | none =>
            ({ status := 404, messages := none, detail := some ("Session not found") }, store)
        | some conversation =>
            if conversation.user_id ≠ userId then
              ({ status := 403, messages := none,
                 detail := some ("Unauthorized access to this session") }, store)
            else
              match up with
              | ChatUpstream.errorStatus s d =>
                  ({ status := s, messages := none, detail := some d }, store)
              | ChatUpstream.okMalformed =>
                  ({ status := 200, messages := some [chatFallbackBadData], detail := none }, store)
              | ChatUpstream.okMessages msgs =>
                  ({ status := 200, messages := some msgs, detail := none },
                   if dbWriteOk then updateConversationMessages store req.session_id msgs
                   else store)
              | ChatUpstream.okUnparseable =>
                  let l := conversation.messages ++
                    [{ sender := "user", text := req.user_message }, chatFallbackParseError]
                  ({ status := 200, messages := some l, detail := none },
                   if dbWriteOk then updateConversationMessages store req.session_id l
                   else store)
              | ChatUpstream.fetchFailed =>
                  let l := conversation.messages ++
                    [{ sender := "user", text := req.user_message }, chatFallbackFetchError]
                  ({ status := 200, messages := some l, detail := none },
                   if dbWriteOk then updateConversationMessages store req.session_id l
                   else store)

/- ===== Session Bootstrap: POST /api/interview/start-with-saved-cv and POST /api/interview/start ===== -/

/-- Body of a saved-CV bootstrap request: `{ cv_id, job_role }`. -/
structure StartRequest where
  cv_id : String
  job_role : String
deriving DecidableEq

/-- Outcomes a bootstrap handler distinguishes for its fetch to the FastAPI
start endpoint: transport failure, non-OK status with detail, OK but
unparseable body, or OK JSON body with optional `session_id` and
`first_ai_message` fields (`none` models a missing key). -/
inductive StartUpstream where
  | fetchFailed : StartUpstream
  | errorStatus : Nat → String → StartUpstream
  | okUnparseable : StartUpstream
  | okFields : Option String → Option ChatMessage → StartUpstream
deriving DecidableEq

/-- Response of a bootstrap handler: HTTP status, optional `session_id`,
`first_ai_message`, `cv_id`, and error `detail`. -/
structure StartResponse where
  status : Nat
  session_id : Option String
  first_ai_message : Option ChatMessage
  cv_id : Option String
  detail : Option String
deriving DecidableEq

/-- Result of the saved-CV bootstrap handler: the response plus the CV and
conversation stores after the call. -/
structure StartResult where
  resp : StartResponse
  cvStore : List CVRecord
  convStore : List Conversation
deriving DecidableEq

/-- The generic opening question used by every bootstrap fallback path. -/
def startWelcomeMessage : ChatMessage :=
  { sender := "ai", text := "Welcome to the interview. Can you tell me about yourself?" }

/-- The opening message placed in the 500 bodies of the outer catch blocks
of the bootstrap handlers. -/
def startErrorMessage : ChatMessage :=
  { sender := "ai", text := "There was an error starting the interview. Please try again." }

/-- JS `data.session_id || fallback`: a missing or empty string falls back. -/
def jsOrStr (o : Option String) (d : String) : String :=
  match o with
  | none => d
  | some s => if s = "" then d else s

/-- JS truthiness of an optional string field: present and non-empty. -/
def jsTruthyStr (o : Option String) : Bool :=
  match o with
  | none => false
  | some s => s ≠ ""

/-- Saved-CV bootstrap handler (POST in
app/api/interview/start-with-saved-cv/route.js), following the source
order: token check, field validation, CV lookup with ownership folded
into the same 404 branch, `lastUsed` refresh and save, on-disk file
check, then the fetch dispatch.  `disk` is the set of paths present on
disk (`existsSync`); `cvSaveOk` models whether `cvRecord.save()`
succeeds (its failure reaches the outer catch, yielding the 500 body
with an error session id).  A transport failure of the fetch also
reaches the outer catch: this handler has no inner try around its
fetch, so `fetchFailed` yields the same 500 shape.  The conversation
store is threaded through untouched: this handler performs no
Conversation operation. -/
def startWithSavedCvPOST (req : StartRequest) (auth : TokenResult)
    (cvStore : List CVRecord) (convStore : List Conversation)
    (disk : List String) (cvSaveOk : Bool) (up : StartUpstream) (now : Nat) : StartResult :=
  match auth with
  | TokenResult.missing =>
      ⟨{ status := 401, session_id := none, first_ai_message := none, cv_id := none,
         detail := some ("Authentication required") }, cvStore, convStore⟩
  | TokenResult.invalid =>
      ⟨{ status := 401, session_id := none, first_ai_message := none, cv_id := none,
         detail := some ("Invalid authentication token") }, cvStore, convStore⟩
  | TokenResult.valid userId =>
      if req.cv_id = "" ∨ req.job_role = "" then
        ⟨{ status := 400, session_id := none, first_ai_message := none, cv_id := none,
           detail := some ("CV ID and job role are required") }, cvStore, convStore⟩
      else
        match cvStore.find? (fun c => c.id == req.cv_id) with
        | none =>
            ⟨{ status := 404, session_id := none, first_ai_message := none, cv_id := none,
               detail := some ("CV not found or unauthorized") }, cvStore, convStore⟩
        | some cvRecord =>
            if cvRecord.userId ≠ userId then
              ⟨{ status := 404, session_id := none, first_ai_message := none, cv_id := none,
                 detail := some ("CV not found or unauthorized") }, cvStore, convStore⟩
            else if cvSaveOk = false then
              ⟨{ status := 500, session_id := some ("error-" ++ toString now),
                 first_ai_message := some startErrorMessage, cv_id := none,
                 detail := some ("Server error: save failed") }, cvStore, convStore⟩
            else
              let cvStoreSaved := cvStore.map
                (fun c => if c.id == req.cv_id then { c with lastUsed := now } else c)
              if cvRecord.filePath = "" ∨ cvRecord.filePath ∉ disk then
                ⟨{ status := 404, session_id := none, first_ai_message := none, cv_id := none,
                   detail := some ("CV file not found on disk") }, cvStoreSaved, convStore⟩
              else
                match up with
                | StartUpstream.fetchFailed =>
                    ⟨{ status := 500, session_id := some ("error-" ++ toString now),
                       first_ai_message := some startErrorMessage, cv_id := none,
                       detail := some ("Server error: fetch failed") }, cvStoreSaved, convStore⟩
                | StartUpstream.errorStatus s d =>
                    ⟨{ status := s, session_id := none, first_ai_message := none, cv_id := none,
                       detail := some d }, cvStoreSaved, convStore⟩
                | StartUpstream.okUnparseable =>
                    ⟨{ status := 200, session_id := some ("fallback-" ++ toString now),
                       first_ai_message := some startWelcomeMessage,
                       cv_id := some req.cv_id, detail := none }, cvStoreSaved, convStore⟩
                | StartUpstream.okFields sid fam =>
                    if jsTruthyStr sid = false ∨ fam = none then
                      ⟨{ status := 200,
                         session_id := some (jsOrStr sid ("fallback-" ++ toString now)),
                         first_ai_message := some (fam.getD startWelcomeMessage),
                         cv_id := some req.cv_id, detail := none }, cvStoreSaved, convStore⟩
                    else
                      ⟨{ status := 200, session_id := sid, first_ai_message := fam,
                         cv_id := some req.cv_id, detail := none }, cvStoreSaved, convStore⟩

/-- The opening message of the form-based start variant when the backend
is unreachable (src/unnamed/part_013, second version, fetch catch). -/
def startFormFetchFallbackMessage : ChatMessage :=
  { sender := "ai"
    text := "Welcome to the interview. Due to a temporary issue connecting to our AI service, we\x27ll proceed with a simulation. Can you tell me about yourself?" }

/-- Form-based bootstrap handler in the variant of /api/interview/start
that wraps its fetch in an inner try (src/unnamed/part_013, second
version): the forwarded form data does not affect which branch is taken,
so only the token check and the fetch dispatch are modeled.  A transport
failure here yields a 200 fallback body, unlike the saved-CV handler. -/
def startFormPOST (auth : TokenResult) (up : StartUpstream) (now : Nat) : StartResponse :=
  match auth with
  | TokenResult.missing =>
      { status := 401, session_id := none, first_ai_message := none, cv_id := none,
        detail := some ("Authentication required") }
  | TokenResult.invalid =>
      { status := 401, session_id := none, first_ai_message := none, cv_id := none,
        detail := some ("Invalid authentication token") }
  | TokenResult.valid _ =>
      match up with
      | StartUpstream.fetchFailed =>
          { status := 200, session_id := some ("fallback-" ++ toString now),
            first_ai_message := some startFormFetchFallbackMessage,
            cv_id := none, detail := none }
      | StartUpstream.errorStatus s d =>
          { status := s, session_id := none, first_ai_message := none, cv_id := none,
            detail := some d }
      | StartUpstream.okUnparseable =>
          { status := 200, session_id := some ("fallback-" ++ toString now),
            first_ai_message := some startWelcomeMessage, cv_id := none, detail := none }
      | StartUpstream.okFields sid fam =>
          if jsTruthyStr sid = false ∨ fam = none then
            { status := 200, session_id := some (jsOrStr sid ("fallback-" ++ toString now)),
              first_ai_message := some (fam.getD startWelcomeMessage),
              cv_id := none, detail := none }
          else
            { status := 200, session_id := sid, first_ai_message := fam,
              cv_id := none, detail := none }

/- ===== CV delete: DELETE /api/user/cv/[id] (app/api/user/cv/[id]/route.js) ===== -/

/-- Response of the CV delete handler: status plus optional message or
error strings. -/
structure DeleteResponse where
  status : Nat
  message : Option String
  error : Option String
deriving DecidableEq

/-- CV delete handler (DELETE in app/api/user/cv/[id]/route.js): token
check, `findById`, 404 when absent, 403 when owned by another user, then
best-effort file unlink (failures caught and ignored, so not modeled)
and record deletion.  Returns the response and the CV store after the
call. -/
def cvDeleteDELETE (id : String) (auth : TokenResult)
    (store : List CVRecord) : DeleteResponse × List CVRecord :=
  match auth with
  | TokenResult.missing =>
      ({ status := 401, message := none, error := some ("Authentication required") }, store)
  | TokenResult.invalid =>
      ({ status := 401, message := none, error := some ("Invalid authentication token") }, store)
  | TokenResult.valid userId =>
      match store.find? (fun c => c.id == id) with
      | none =>
          ({ status := 404, message := none, error := some ("CV not found") }, store)
      | some cv =>
          if cv.userId ≠ userId then
            ({ status := 403, message := none, error := some ("Unauthorized") }, store)
          else
            ({ status := 200, message := some ("CV deleted successfully"), error := none },
             store.filter (fun c => c.id ≠ id))

/- ===== Session listing: GET /api/interview/sessions (src/unnamed/part_014) ===== -/

/-- One session summary as produced by the listing handler. -/
structure SessionSummary where
  id : String
  job_role : String
  created_at : Nat
  finished : Bool
  message_count : Nat
deriving DecidableEq

/-- Insert into a list kept in descending `key` order, preserving the
relative order of equal keys (models the document sort of a Mongo
`.sort({ field: -1 })` query). -/
def insertByKeyDesc {α : Type} (key : α → Nat) (c : α) : List α → List α
  | [] => [c]
  | x :: xs => if key c ≤ key x then x :: insertByKeyDesc key c xs else c :: x :: xs

/-- Sort a list into descending `key` order. -/
def sortByKeyDesc {α : Type} (key : α → Nat) : List α → List α
  | [] => []
  | x :: xs => insertByKeyDesc key x (sortByKeyDesc key xs)

/-- The summary shape built from a Conversation by the listing handler. -/
def toSummary (c : Conversation) : SessionSummary :=
  { id := c.session_id, job_role := c.job_role, created_at := c.createdAt,
    finished := c.finished, message_count := c.messages.length }

/-- The direct database query of the listing handler:
`Conversation.find({ user_id }).sort({ createdAt: -1 }).limit(10)`,
mapped to summaries. -/
def dbSessions (userId : String) (store : List Conversation) : List SessionSummary :=
  ((sortByKeyDesc (fun c => c.createdAt)
      (store.filter (fun c => c.user_id == userId))).take 10).map toSummary

/-- Outcomes the listing handler distinguishes for its fetch to the
FastAPI sessions endpoint. -/
inductive SessionsUpstream where
  | fetchFailed : SessionsUpstream
  | errorStatus : Nat → String → SessionsUpstream
  | okUnparseable : SessionsUpstream
  | okSessions : List SessionSummary → SessionsUpstream
deriving DecidableEq

/-- Response of the listing handler. -/
structure SessionsResponse where
  status : Nat
  sessions : Option (List SessionSummary)
  error : Option String
deriving DecidableEq

/-- Session listing handler (GET in src/unnamed/part_014): token check,
fetch to the backend; an OK body is returned as-is; an upstream 404
falls back to the direct database query; any other non-OK upstream
status is propagated; a transport failure (or an OK body that fails to
parse, whose exception lands in the same catch) falls back to the
database query, and a database failure there degrades to an empty list.
`dbOk` models whether the direct database query succeeds; a database
failure inside the upstream-404 branch is caught by the same fetch-error
catch, whose own retry then fails again, ending in the empty list. -/
def sessionsGET (auth : TokenResult) (store : List Conversation)
    (dbOk : Bool) (up : SessionsUpstream) : SessionsResponse :=
  match auth with
  | TokenResult.missing =>
      { status := 401, sessions := none, error := some ("Authentication required") }
  | TokenResult.invalid =>
      { status := 401, sessions := none, error := some ("Invalid authentication token") }
  | TokenResult.valid userId =>
      match up with
      | SessionsUpstream.okSessions l =>
          { status := 200, sessions := some l, error := none }
      | SessionsUpstream.errorStatus s d =>
          if s = 404 then
            if dbOk then
              { status := 200, sessions := some (dbSessions userId store), error := none }
            else
              { status := 200, sessions := some [], error := none }
          else
            { status := s, sessions := none, error := some d }
      | SessionsUpstream.fetchFailed =>
          if dbOk then
            { status := 200, sessions := some (dbSessions userId store), error := none }
          else
            { status := 200, sessions := some [], error := none }
      | SessionsUpstream.okUnparseable =>
          if dbOk then
            { status := 200, sessions := some (dbSessions userId store), error := none }
          else
            { status := 200, sessions := some [], error := none }

/- ===== Single-session Get: GET /api/interview/session/[id] (app/api/interview/sessions/[id]/route.js) ===== -/

/-- The session payload returned by the single-session Get handler. -/
structure SessionData where
  session_id : String
  job_role : String
  created_at : Nat
  finished : Bool
  messages : List ChatMessage
  max_questions : Nat
deriving DecidableEq

/-- The payload built from a database Conversation (`max_questions`
defaults to 5). -/
def toSessionData (c : Conversation) : SessionData :=
  { session_id := c.session_id, job_role := c.job_role, created_at := c.createdAt,
    finished := c.finished, messages := c.messages, max_questions := 5 }

/-- Outcomes the single-session Get handler distinguishes for its fetch to
the FastAPI session endpoint. -/
inductive SessionGetUpstream where
  | fetchFailed : SessionGetUpstream
  | errorStatus : Nat → String → SessionGetUpstream
  | okUnparseable : SessionGetUpstream
  | okData : SessionData → SessionGetUpstream
deriving DecidableEq

/-- Response of the single-session Get handler. -/
structure SessionGetResponse where
  status : Nat
  data : Option SessionData
  error : Option String
deriving DecidableEq

/-- Single-session Get handler (GET in
app/api/interview/sessions/[id]/route.js): token check, then a database
`findOne` keyed on BOTH the session id and the requesting user id; a hit
returns the stored conversation; a miss (or a database failure, `dbOk`)
forwards to the backend, propagating a non-OK status and degrading a
transport failure (or a body that fails to parse, whose exception lands
in the same catch) to a 404.  This handler has no 403 branch of its
own. -/
def sessionGetGET (id : String) (auth : TokenResult) (store : List Conversation)
    (dbOk : Bool) (up : SessionGetUpstream) : SessionGetResponse :=
  match auth with
  | TokenResult.missing =>
      { status := 401, data := none, error := some ("Authentication required") }
  | TokenResult.invalid =>
      { status := 401, data := none, error := some ("Invalid authentication token") }
  | TokenResult.valid userId =>
      let dbHit := if dbOk then
          store.find? (fun c => c.session_id == id && c.user_id == userId)
        else none
      match dbHit with
      | some conversation =>
          { status := 200, data := some (toSessionData conversation), error := none }
      | none =>
          match up with
          | SessionGetUpstream.okData d =>
              { status := 200, data := some d, error := none }
          | SessionGetUpstream.errorStatus s d =>
              { status := s, data := none, error := some d }
          | SessionGetUpstream.fetchFailed =>
              { status := 404, data := none, error := some ("Session not found") }
          | SessionGetUpstream.okUnparseable =>
              { status := 404, data := none, error := some ("Session not found") }

/- ===== CV upload: POST /api/user/save-cv, and listing: GET /api/user/cvs ===== -/

/-- The uploaded file of a save-cv request: name, byte count, declared
content type. -/
structure UploadedFile where
  name : String
  size : Nat
  contentType : String
deriving DecidableEq

/-- The `cv` object of a successful save-cv response. -/
structure SavedCvInfo where
  id : String
  filename : String
  size : Nat
  uploadedAt : Nat
  lastUsed : Nat
  fileId : String
deriving DecidableEq

/-- Response of the save-cv handler. -/
structure SaveCvResponse where
  status : Nat
  cv : Option SavedCvInfo
  error : Option String
deriving DecidableEq

/-- `name.replace(/[^a-zA-Z0-9.-]/g, '_')`: every character outside
ASCII letters, digits, dot and hyphen becomes an underscore. -/
def sanitizeFileName (s : String) : String :=
  String.mk (s.data.map (fun c =>
    if c.isAlphanum ∨ c = '.' ∨ c = '-' then c else '_'))

/-- `CV.findByIdAndUpdate(id, { extractedText })`: rewrites the extracted
text of the record with the given id. -/
def updateExtractedText (store : List CVRecord) (id : String) (txt : String) : List CVRecord :=
  store.map (fun c => if c.id == id then { c with extractedText := txt } else c)

/-- The CV record inserted by the upload handler
(app/api/user/save-cv/route.js lines 91-103): the stored filename is the
on-disk id plus the sanitized original name, the stored path is the
container-consistent path, the content type falls back to
application/octet-stream, the extracted text starts empty, and
`uploadedAt = lastUsed = now`. -/
def savedCvRecord (userId : String) (f : UploadedFile) (freshId fileId : String)
    (now : Nat) : CVRecord :=
  { id := freshId, userId := userId,
    filename := fileId ++ "_" ++ sanitizeFileName f.name,
    originalName := f.name, fileSize := f.size,
    filePath := "/app/uploads/" ++ (fileId ++ "_" ++ sanitizeFileName f.name),
    contentType := if f.contentType = "" then "application/octet-stream" else f.contentType,
    extractedText := "", uploadedAt := now, lastUsed := now, fileId := fileId }

/-- CV upload handler (POST in app/api/user/save-cv/route.js): token
check, file-presence check, write to disk (not modeled beyond the stored
path), insertion of the new CV record with `uploadedAt = lastUsed = now`,
then a best-effort call to the backend for text extraction whose
non-empty result updates the record (`extraction`; `none` models both a
failed call and a reply without text — any error there is caught and the
upload still succeeds).  `freshId` is the new Mongo ObjectId, `fileId`
the timestamp-plus-random on-disk id.  Returns the response and the CV
store after the call. -/
def saveCvPOST (auth : TokenResult) (file : Option UploadedFile)
    (store : List CVRecord) (freshId fileId : String) (now : Nat)
    (extraction : Option String) : SaveCvResponse × List CVRecord :=
  match auth with
  | TokenResult.missing =>
      ({ status := 401, cv := none, error := some ("Authentication required") }, store)
  | TokenResult.invalid =>
      ({ status := 401, cv := none, error := some ("Invalid authentication token") }, store)
  | TokenResult.valid userId =>
      match file with
      | none =>
          ({ status := 400, cv := none, error := some ("No CV file provided") }, store)
      | some f =>
          let stored := store ++ [savedCvRecord userId f freshId fileId now]
          let final := match extraction with
            | some txt => if txt ≠ "" then updateExtractedText stored freshId txt else stored
            | none => stored
          ({ status := 200,
             cv := some { id := freshId, filename := f.name, size := f.size,
                          uploadedAt := now, lastUsed := now, fileId := fileId },
             error := none }, final)

/-- One entry of the CV listing response. -/
structure CvEntry where
  id : String
  filename : String
  size : Nat
  uploadedAt : Nat
  lastUsed : Nat
  contentType : String
deriving DecidableEq

/-- Response of the CV listing handler. -/
structure CvsResponse where
  status : Nat
  cvs : Option (List CvEntry)
  error : Option String
deriving DecidableEq

/-- The entry shape built from a CV record by the listing handler:
`filename` is `originalName || filename` (JS falsy fallback). -/
def toCvEntry (c : CVRecord) : CvEntry :=
  { id := c.id,
    filename := if c.originalName = "" then c.filename else c.originalName,
    size := c.fileSize, uploadedAt := c.uploadedAt, lastUsed := c.lastUsed,
    contentType := c.contentType }

/-- CV listing handler (GET in app/api/user/cvs/route.js): token check,
then `CV.find({ userId }).sort({ lastUsed: -1 }).limit(10)` mapped to
entries. -/
def cvsGET (auth : TokenResult) (store : List CVRecord) : CvsResponse :=
  match auth with
  | TokenResult.missing =>
      { status := 401, cvs := none, error := some ("Authentication required") }
  | TokenResult.invalid =>
      { status := 401, cvs := none, error := some ("Invalid authentication token") }
  | TokenResult.valid userId =>
      { status := 200,
        cvs := some (((sortByKeyDesc (fun c => c.lastUsed)
          (store.filter (fun c => c.userId == userId))).take 10).map toCvEntry),
        error := none }

/- ===== Helper lemmas ===== -/

theorem mem_insertByKeyDesc {α : Type} (key : α → Nat) (c a : α) (l : List α) :
    a ∈ insertByKeyDesc key c l ↔ a = c ∨ a ∈ l := by
  induction l with
  | nil => simp [insertByKeyDesc]
  | cons x xs ih =>
    simp only [insertByKeyDesc]
    by_cases h : key c ≤ key x
    · rw [if_pos h]
      simp only [List.mem_cons, ih]
      tauto
    · rw [if_neg h]
      simp only [List.mem_cons]

theorem mem_sortByKeyDesc {α : Type} (key : α → Nat) (a : α) (l : List α) :
    a ∈ sortByKeyDesc key l ↔ a ∈ l := by
  induction l with
  | nil => simp [sortByKeyDesc]
  | cons x xs ih =>
    simp [sortByKeyDesc, mem_insertByKeyDesc, ih]

theorem pairwise_insertByKeyDesc {α : Type} (key : α → Nat) (c : α) (l : List α)
    (h : l.Pairwise (fun a b => key b ≤ key a)) :
    (insertByKeyDesc key c l).Pairwise (fun a b => key b ≤ key a) := by
  induction l with
  | nil => simp [insertByKeyDesc]
  | cons x xs ih =>
    rcases List.pairwise_cons.mp h with ⟨hx, hxs⟩
    simp only [insertByKeyDesc]
    by_cases hc : key c ≤ key x
    · rw [if_pos hc]
      refine List.pairwise_cons.mpr ⟨?_, ih hxs⟩
      intro y hy
      rcases (mem_insertByKeyDesc key c y xs).mp hy with rfl | hy'
      · exact hc
      · exact hx y hy'
    · rw [if_neg hc]
      push_neg at hc
      refine List.pairwise_cons.mpr ⟨?_, h⟩
      intro y hy
      rcases List.mem_cons.mp hy with rfl | hy'
      · exact le_of_lt hc
      · exact le_trans (hx y hy') (le_of_lt hc)

theorem pairwise_sortByKeyDesc {α : Type} (key : α → Nat) (l : List α) :
    (sortByKeyDesc key l).Pairwise (fun a b => key b ≤ key a) := by
  induction l with
  | nil => simp [sortByKeyDesc]
  | cons x xs ih => exact pairwise_insertByKeyDesc key x _ ih

theorem sortByKeyDesc_eq_cons_of_max {α : Type} (key : α → Nat) (m : α) (l : List α)
    (hm : m ∈ l) (hmax : ∀ x ∈ l, x = m ∨ key x < key m) :
    ∃ t, sortByKeyDesc key l = m :: t := by
  induction l with
  | nil => cases hm
  | cons a as ih =>
    simp only [sortByKeyDesc]
    rcases List.mem_cons.mp hm with rfl | hmem
    · cases hs : sortByKeyDesc key as with
      | nil => exact ⟨[], rfl⟩
      | cons y ys =>
        have hy : y ∈ as := (mem_sortByKeyDesc key y as).mp (by rw [hs]; exact List.mem_cons_self y ys)
        rcases hmax y (List.mem_cons_of_mem _ hy) with rfl | hlt
        · exact ⟨insertByKeyDesc key y ys, by simp [insertByKeyDesc]⟩
        · exact ⟨y :: ys, by simp [insertByKeyDesc, Nat.not_le.mpr hlt]⟩
    · have hmax' : ∀ x ∈ as, x = m ∨ key x < key m :=
        fun x hx => hmax x (List.mem_cons_of_mem _ hx)
      rcases ih hmem hmax' with ⟨t, ht⟩
      rcases hmax a (List.mem_cons_self a as) with rfl | hlt
      · refine ⟨insertByKeyDesc key a t, ?_⟩
        rw [ht]
        simp [insertByKeyDesc]
      · refine ⟨insertByKeyDesc key a t, ?_⟩
        rw [ht]
        simp [insertByKeyDesc, le_of_lt hlt]

theorem find?_filter_of_imp {α : Type} (p q : α → Bool) (l : List α)
    (h : ∀ a, p a = true → q a = true) :
    l.find? p = (l.filter q).find? p := by
  induction l with
  | nil => rfl
  | cons a as ih =>
    by_cases hpa : p a = true
    · have hqa := h a hpa
      simp [List.find?_cons, List.filter_cons, hpa, hqa]
    · by_cases hqa : q a = true
      · simp [List.find?_cons, List.filter_cons, hpa, hqa, ih]
      · simp only [Bool.not_eq_true] at hpa hqa
        simp [List.find?_cons, List.filter_cons, hpa, hqa, ih]

theorem getLast?_append_pair {α : Type} (l : List α) (a b : α) :
    (l ++ [a, b]).getLast? = some b := by
  have h : l ++ [a, b] = (l ++ [a]) ++ [b] := by simp
  rw [h, List.getLast?_concat]

theorem updateExtractedText_append_fresh (store : List CVRecord) (r : CVRecord)
    (txt : String) (hfresh : ∀ c ∈ store, c.id ≠ r.id) :
    updateExtractedText (store ++ [r]) r.id txt
      = store ++ [{ r with extractedText := txt }] := by
  unfold updateExtractedText
  rw [List.map_append]
  congr 1
  · induction store with
    | nil => rfl
    | cons c cs ih =>
      have hc : ¬ (c.id == r.id) = true := by
        simp only [beq_iff_eq]
        exact hfresh c (List.mem_cons_self c cs)
      simp only [List.map_cons, if_neg hc]
      rw [ih (fun x hx => hfresh x (List.mem_cons_of_mem _ hx))]
  · simp

/- ===== Claims ===== -/

/-- Sample conversation used by concrete witnesses: session "s1" owned by
user "u1", one stored AI message. -/
def sampleConv : Conversation :=
  { session_id := "s1", user_id := "u1", job_role := "Engineer", cv_text := "cv",
    messages := [{ sender := "ai", text := "Q1" }], createdAt := 0, finished := false }

/-- Sample CV record used by concrete witnesses: CV "c1" owned by "u1",
stored at a path present on the sample disk. -/
def sampleCv : CVRecord :=
  { id := "c1", userId := "u1", filename := "f1_cv.pdf", originalName := "cv.pdf",
    fileSize := 100, filePath := "/app/uploads/f1_cv.pdf",
    contentType := "application/pdf", extractedText := "", uploadedAt := 1,
    lastUsed := 1, fileId := "f1" }

/-- Sample well-formed upstream message list used by concrete witnesses. -/
def sampleMsgs : List ChatMessage :=
  [{ sender := "ai", text := "Q1" }, { sender := "user", text := "hi" },
   { sender := "ai", text := "Q2" }]

/-- Claim C1 (counterexample): on the return path where the upstream reply
has a malformed `messages` field, the Chat Relay returns the single
canned AI message only: the returned list does not contain the just-sent
user message and is not strictly longer than the stored list (here both
have length 1). -/
theorem c1_counterexample :
    (chatPOST { session_id := "s1", user_message := "hello" }
        (TokenResult.valid "u1") [sampleConv] ChatUpstream.okMalformed true).1.messages
      = some [chatFallbackBadData]
    ∧ ({ sender := "user", text := "hello" } : ChatMessage) ∉ [chatFallbackBadData]
    ∧ ¬ sampleConv.messages.length < ([chatFallbackBadData] : List ChatMessage).length := by
  refine ⟨?_, ?_, ?_⟩ <;> decide

/-- Claim C1 (amended): for every chat request with a valid token, an
existing session owned by the requester, and a non-empty user message,
on the two locally synthesized fallback paths (upstream body
unparseable, or upstream unreachable) the returned message list is the
stored list plus the user turn and an AI turn: it contains the just-sent
user message, is strictly longer than the stored list, and its last
element has sender "ai".  On the malformed-`messages`-field path the
relay instead returns a fixed single AI message omitting the user turn
(see the counterexample), and on the success path it returns the
upstream list verbatim. -/
theorem c1_amended_fallback_paths_wellformed (req : ChatRequest) (u : String)
    (conversation : Conversation) (store : List Conversation) (up : ChatUpstream)
    (dbWriteOk : Bool)
    (hs : req.session_id ≠ "") (hm : req.user_message ≠ "")
    (hfind : store.find? (fun c => c.session_id == req.session_id) = some conversation)
    (hown : conversation.user_id = u)
    (hup : up = ChatUpstream.okUnparseable ∨ up = ChatUpstream.fetchFailed) :
    ∃ l, (chatPOST req (TokenResult.valid u) store up dbWriteOk).1.status = 200
      ∧ (chatPOST req (TokenResult.valid u) store up dbWriteOk).1.messages = some l
      ∧ ({ sender := "user", text := req.user_message } : ChatMessage) ∈ l
      ∧ conversation.messages.length < l.length
      ∧ ∃ a, l.getLast? = some a ∧ a.sender = "ai" := by
  have hne : ¬ conversation.user_id ≠ u := by simp [hown]
  rcases hup with rfl | rfl
  · refine ⟨conversation.messages ++
      [{ sender := "user", text := req.user_message }, chatFallbackParseError],
      ?_, ?_, ?_, ?_, ⟨chatFallbackParseError, ?_, rfl⟩⟩
    · simp [chatPOST, hs, hm, hfind, hne]
    · simp [chatPOST, hs, hm, hfind, hne]
    · simp
    · simp
    · exact getLast?_append_pair _ _ _
  · refine ⟨conversation.messages ++
      [{ sender := "user", text := req.user_message }, chatFallbackFetchError],
      ?_, ?_, ?_, ?_, ⟨chatFallbackFetchError, ?_, rfl⟩⟩
    · simp [chatPOST, hs, hm, hfind, hne]
    · simp [chatPOST, hs, hm, hfind, hne]
    · simp
    · simp
    · exact getLast?_append_pair _ _ _

/-- Claim C1 (witness): the amended theorem applied to the concrete
session "s1" of user "u1" with message "hi" on the unreachable-backend
path. -/
theorem c1_amended_witness :
    ("s1" : String) ≠ "" ∧ ("hi" : String) ≠ ""
    ∧ [sampleConv].find? (fun c => c.session_id == "s1") = some sampleConv
    ∧ sampleConv.user_id = "u1"
    ∧ ∃ l, (chatPOST { session_id := "s1", user_message := "hi" }
          (TokenResult.valid "u1") [sampleConv] ChatUpstream.fetchFailed true).1.status = 200
        ∧ (chatPOST { session_id := "s1", user_message := "hi" }
          (TokenResult.valid "u1") [sampleConv] ChatUpstream.fetchFailed true).1.messages = some l
        ∧ ({ sender := "user", text := "hi" } : ChatMessage) ∈ l
        ∧ sampleConv.messages.length < l.length
        ∧ ∃ a, l.getLast? = some a ∧ a.sender = "ai" :=
  ⟨by decide, by decide, by decide, by decide,
    c1_amended_fallback_paths_wellformed { session_id := "s1", user_message := "hi" } "u1"
      sampleConv [sampleConv] ChatUpstream.fetchFailed true
      (by decide) (by decide) (by decide) (by decide) (Or.inr rfl)⟩

/-- Claim C2: for every chat request with a valid token, an existing
session owned by the requester, and a non-empty user message, if the
external AI service is unreachable or its reply is malformed (body not
parseable as JSON, or `messages` missing or not an array), the Chat
Relay responds HTTP 200 with a non-empty `messages` array whose last
entry has sender "ai" and non-empty text. -/
theorem c2_upstream_failure_masked (req : ChatRequest) (u : String)
    (conversation : Conversation) (store : List Conversation) (up : ChatUpstream)
    (dbWriteOk : Bool)
    (hs : req.session_id ≠ "") (hm : req.user_message ≠ "")
    (hfind : store.find? (fun c => c.session_id == req.session_id) = some conversation)
    (hown : conversation.user_id = u)
    (hup : up = ChatUpstream.fetchFailed ∨ up = ChatUpstream.okUnparseable
      ∨ up = ChatUpstream.okMalformed) :
    (chatPOST req (TokenResult.valid u) store up dbWriteOk).1.status = 200
    ∧ ∃ l a, (chatPOST req (TokenResult.valid u) store up dbWriteOk).1.messages = some l
      ∧ l ≠ [] ∧ l.getLast? = some a ∧ a.sender = "ai" ∧ a.text ≠ "" := by
  have hne : ¬ conversation.user_id ≠ u := by simp [hown]
  rcases hup with rfl | rfl | rfl
  · refine ⟨by simp [chatPOST, hs, hm, hfind, hne], ⟨conversation.messages ++
      [{ sender := "user", text := req.user_message }, chatFallbackFetchError],
      chatFallbackFetchError, by simp [chatPOST, hs, hm, hfind, hne], by simp,
      getLast?_append_pair _ _ _, rfl, by decide⟩⟩
  · refine ⟨by simp [chatPOST, hs, hm, hfind, hne], ⟨conversation.messages ++
      [{ sender := "user", text := req.user_message }, chatFallbackParseError],
      chatFallbackParseError, by simp [chatPOST, hs, hm, hfind, hne], by simp,
      getLast?_append_pair _ _ _, rfl, by decide⟩⟩
  · refine ⟨by simp [chatPOST, hs, hm, hfind, hne], ⟨[chatFallbackBadData],
      chatFallbackBadData, by simp [chatPOST, hs, hm, hfind, hne], by simp,
      rfl, rfl, by decide⟩⟩

/-- Claim C2 (witness): the theorem applied to the concrete session "s1"
of user "u1" with message "hi" on the malformed-`messages`-field path. -/
theorem c2_witness :
    ("s1" : String) ≠ "" ∧ ("hi" : String) ≠ ""
    ∧ [sampleConv].find? (fun c => c.session_id == "s1") = some sampleConv
    ∧ sampleConv.user_id = "u1"
    ∧ ((chatPOST { session_id := "s1", user_message := "hi" }
          (TokenResult.valid "u1") [sampleConv] ChatUpstream.okMalformed true).1.status = 200
      ∧ ∃ l a, (chatPOST { session_id := "s1", user_message := "hi" }
          (TokenResult.valid "u1") [sampleConv] ChatUpstream.okMalformed true).1.messages = some l
        ∧ l ≠ [] ∧ l.getLast? = some a ∧ a.sender = "ai" ∧ a.text ≠ "") :=
  ⟨by decide, by decide, by decide, by decide,
    c2_upstream_failure_masked { session_id := "s1", user_message := "hi" } "u1"
      sampleConv [sampleConv] ChatUpstream.okMalformed true
      (by decide) (by decide) (by decide) (by decide) (Or.inr (Or.inr rfl))⟩

/-- Claim C5: a Chat Relay call and a CV-delete call, each with a valid
token against a record that exists but is owned by a different user,
both answer 403 Forbidden, never 404. -/
theorem c5_cross_user_forbidden (req : ChatRequest) (u : String)
    (conversation : Conversation) (store : List Conversation) (up : ChatUpstream)
    (dbWriteOk : Bool) (delId u2 : String) (cv : CVRecord) (cvStore : List CVRecord)
    (hs : req.session_id ≠ "") (hm : req.user_message ≠ "")
    (hfind : store.find? (fun c => c.session_id == req.session_id) = some conversation)
    (hown : conversation.user_id ≠ u)
    (hfind2 : cvStore.find? (fun c => c.id == delId) = some cv)
    (hown2 : cv.userId ≠ u2) :
    (chatPOST req (TokenResult.valid u) store up dbWriteOk).1.status = 403
    ∧ (cvDeleteDELETE delId (TokenResult.valid u2) cvStore).1.status = 403 := by
  constructor
  · simp [chatPOST, hs, hm, hfind, hown]
  · simp [cvDeleteDELETE, hfind2, hown2]

/-- Claim C5 (witness): the theorem applied to user "u2" touching the
conversation "s1" and a CV "c1", both owned by "u1". -/
theorem c5_witness :
    ("s1" : String) ≠ "" ∧ ("hi" : String) ≠ ""
    ∧ [sampleConv].find? (fun c => c.session_id == "s1") = some sampleConv
    ∧ sampleConv.user_id ≠ "u2"
    ∧ [sampleCv].find? (fun c => c.id == "c1") = some sampleCv
    ∧ sampleCv.userId ≠ "u2"
    ∧ (chatPOST { session_id := "s1", user_message := "hi" }
        (TokenResult.valid "u2") [sampleConv] ChatUpstream.fetchFailed true).1.status = 403
    ∧ (cvDeleteDELETE "c1" (TokenResult.valid "u2") [sampleCv]).1.status = 403 := by
  have h := c5_cross_user_forbidden { session_id := "s1", user_message := "hi" } "u2"
    sampleConv [sampleConv] ChatUpstream.fetchFailed true "c1" "u2" sampleCv [sampleCv]
    (by decide) (by decide) (by decide) (by decide) (by decide) (by decide)
  exact ⟨by decide, by decide, by decide, by decide, by decide, by decide, h.1, h.2⟩

/-- Claim C6: when the upstream AI service returns a well-formed message
list, the Chat Relay answers HTTP 200 with that list, and the response is
the same whether or not the subsequent store write succeeds. -/
theorem c6_store_write_failure_invisible (req : ChatRequest) (u : String)
    (conversation : Conversation) (store : List Conversation) (msgs : List ChatMessage)
    (hs : req.session_id ≠ "") (hm : req.user_message ≠ "")
    (hfind : store.find? (fun c => c.session_id == req.session_id) = some conversation)
    (hown : conversation.user_id = u) :
    (chatPOST req (TokenResult.valid u) store (ChatUpstream.okMessages msgs) true).1
      = (chatPOST req (TokenResult.valid u) store (ChatUpstream.okMessages msgs) false).1
    ∧ (chatPOST req (TokenResult.valid u) store (ChatUpstream.okMessages msgs) true).1.status = 200
    ∧ (chatPOST req (TokenResult.valid u) store (ChatUpstream.okMessages msgs) true).1.messages
      = some msgs := by
  have hne : ¬ conversation.user_id ≠ u := by simp [hown]
  refine ⟨?_, ?_, ?_⟩ <;> simp [chatPOST, hs, hm, hfind, hne]

/-- Claim C6 (witness): the theorem applied to the concrete session "s1"
of user "u1" with an upstream reply of two messages. -/
theorem c6_witness :
    ("s1" : String) ≠ "" ∧ ("hi" : String) ≠ ""
    ∧ [sampleConv].find? (fun c => c.session_id == "s1") = some sampleConv
    ∧ sampleConv.user_id = "u1"
    ∧ ((chatPOST { session_id := "s1", user_message := "hi" } (TokenResult.valid "u1")
        [sampleConv] (ChatUpstream.okMessages sampleMsgs) true).1
      = (chatPOST { session_id := "s1", user_message := "hi" } (TokenResult.valid "u1")
        [sampleConv] (ChatUpstream.okMessages sampleMsgs) false).1
    ∧ (chatPOST { session_id := "s1", user_message := "hi" } (TokenResult.valid "u1")
        [sampleConv] (ChatUpstream.okMessages sampleMsgs) true).1.status = 200
    ∧ (chatPOST { session_id := "s1", user_message := "hi" } (TokenResult.valid "u1")
        [sampleConv] (ChatUpstream.okMessages sampleMsgs) true).1.messages
      = some sampleMsgs) :=
  ⟨by decide, by decide, by decide, by decide,
    c6_store_write_failure_invisible { session_id := "s1", user_message := "hi" } "u1"
      sampleConv [sampleConv] sampleMsgs (by decide) (by decide) (by decide) (by decide)⟩

/-- Claim C3 (counterexample): a saved-CV bootstrap request with a valid
token, an owned CV, and the file on disk, whose upstream fetch fails
(backend unreachable), is answered with HTTP 500 by
/api/interview/start-with-saved-cv — that handler has no inner try
around its fetch, so the transport failure reaches the outer catch and
the request fails rather than returning a 200 fallback. -/
theorem c3_counterexample :
    (startWithSavedCvPOST { cv_id := "c1", job_role := "Engineer" }
        (TokenResult.valid "u1") [sampleCv] [] ["/app/uploads/f1_cv.pdf"] true
        StartUpstream.fetchFailed 7).resp.status = 500 := by
  decide

/-- Claim C3 (amended): for a Session Bootstrap request with a valid token
and readable CV content, an upstream response that does not parse, or
that parses but is missing the required `first_ai_message` field,
yields HTTP 200 rather than an error, with the generic non-empty
opening AI message substituted locally and with a locally generated
`fallback-` session identifier substituted whenever the upstream
`session_id` is missing or empty — in both
/api/interview/start-with-saved-cv and the form-based
/api/interview/start; when the service is unreachable, the form-based
/api/interview/start variant with an inner fetch try still returns the
200 fallback, but /api/interview/start-with-saved-cv fails the request
with HTTP 500 (see the counterexample). -/
theorem c3_amended_bootstrap_fallback (req : StartRequest) (u : String)
    (cv : CVRecord) (cvStore : List CVRecord) (convStore : List Conversation)
    (disk : List String) (up : StartUpstream) (now : Nat)
    (hfields : req.cv_id ≠ "" ∧ req.job_role ≠ "")
    (hfind : cvStore.find? (fun c => c.id == req.cv_id) = some cv)
    (hown : cv.userId = u)
    (hpath : cv.filePath ≠ "" ∧ cv.filePath ∈ disk)
    (hup : up = StartUpstream.okUnparseable
      ∨ ∃ sid, up = StartUpstream.okFields sid none) :
    ((startWithSavedCvPOST req (TokenResult.valid u) cvStore convStore disk true up now).resp.status = 200
      ∧ (startWithSavedCvPOST req (TokenResult.valid u) cvStore convStore disk true up now).resp.first_ai_message = some startWelcomeMessage
      ∧ startWelcomeMessage.text ≠ ""
      ∧ (up = StartUpstream.okUnparseable →
          (startWithSavedCvPOST req (TokenResult.valid u) cvStore convStore disk true up now).resp.session_id
            = some ("fallback-" ++ toString now))
      ∧ (∀ sid, up = StartUpstream.okFields sid none →
          (startWithSavedCvPOST req (TokenResult.valid u) cvStore convStore disk true up now).resp.session_id
            = some (jsOrStr sid ("fallback-" ++ toString now))))
    ∧ ((startFormPOST (TokenResult.valid u) up now).status = 200
      ∧ (startFormPOST (TokenResult.valid u) up now).first_ai_message = some startWelcomeMessage)
    ∧ ((startFormPOST (TokenResult.valid u) StartUpstream.fetchFailed now).status = 200
      ∧ (startFormPOST (TokenResult.valid u) StartUpstream.fetchFailed now).first_ai_message
          = some startFormFetchFallbackMessage
      ∧ startFormFetchFallbackMessage.text ≠ "") := by
  have hne : ¬ (req.cv_id = "" ∨ req.job_role = "") := by
    rcases hfields with ⟨h1, h2⟩
    simp [h1, h2]
  have hne2 : ¬ cv.userId ≠ u := by simp [hown]
  have hne3 : ¬ (cv.filePath = "" ∨ cv.filePath ∉ disk) := by
    rcases hpath with ⟨h1, h2⟩
    simp [h1, h2]
  refine ⟨?_, ?_, ⟨by simp [startFormPOST], by simp [startFormPOST], by decide⟩⟩
  · rcases hup with rfl | ⟨sid, rfl⟩
    · refine ⟨?_, ?_, by decide, fun _ => ?_, fun sid h => ?_⟩
      · simp [startWithSavedCvPOST, hne, hfind, hne2, hne3]
      · simp [startWithSavedCvPOST, hne, hfind, hne2, hne3]
      · simp [startWithSavedCvPOST, hne, hfind, hne2, hne3]
      · cases h
    · refine ⟨?_, ?_, by decide, fun h => ?_, fun sid2 h => ?_⟩
      · simp [startWithSavedCvPOST, hne, hfind, hne2, hne3]
      · simp [startWithSavedCvPOST, hne, hfind, hne2, hne3]
      · cases h
      · have hs : sid2 = sid := by
          cases h
          rfl
        subst hs
        simp [startWithSavedCvPOST, hne, hfind, hne2, hne3]
  · rcases hup with rfl | ⟨sid, rfl⟩
    · exact ⟨by simp [startFormPOST], by simp [startFormPOST]⟩
    · exact ⟨by simp [startFormPOST], by simp [startFormPOST]⟩

/-- Claim C3 (witness): the amended theorem applied to CV "c1" of user
"u1" with an unparseable upstream body at time 7. -/
theorem c3_amended_witness :
    (("c1" : String) ≠ "" ∧ ("Engineer" : String) ≠ "")
    ∧ [sampleCv].find? (fun c => c.id == "c1") = some sampleCv
    ∧ sampleCv.userId = "u1"
    ∧ (sampleCv.filePath ≠ "" ∧ sampleCv.filePath ∈ ["/app/uploads/f1_cv.pdf"])
    ∧ ((startWithSavedCvPOST { cv_id := "c1", job_role := "Engineer" }
          (TokenResult.valid "u1") [sampleCv] [] ["/app/uploads/f1_cv.pdf"] true
          StartUpstream.okUnparseable 7).resp.status = 200
      ∧ (startWithSavedCvPOST { cv_id := "c1", job_role := "Engineer" }
          (TokenResult.valid "u1") [sampleCv] [] ["/app/uploads/f1_cv.pdf"] true
          StartUpstream.okUnparseable 7).resp.first_ai_message = some startWelcomeMessage
      ∧ startWelcomeMessage.text ≠ ""
      ∧ (StartUpstream.okUnparseable = StartUpstream.okUnparseable →
          (startWithSavedCvPOST { cv_id := "c1", job_role := "Engineer" }
            (TokenResult.valid "u1") [sampleCv] [] ["/app/uploads/f1_cv.pdf"] true
            StartUpstream.okUnparseable 7).resp.session_id = some ("fallback-" ++ toString 7))
      ∧ (∀ sid, StartUpstream.okUnparseable = StartUpstream.okFields sid none →
          (startWithSavedCvPOST { cv_id := "c1", job_role := "Engineer" }
            (TokenResult.valid "u1") [sampleCv] [] ["/app/uploads/f1_cv.pdf"] true
            StartUpstream.okUnparseable 7).resp.session_id
              = some (jsOrStr sid ("fallback-" ++ toString 7))))
    ∧ ((startFormPOST (TokenResult.valid "u1") StartUpstream.okUnparseable 7).status = 200
      ∧ (startFormPOST (TokenResult.valid "u1") StartUpstream.okUnparseable 7).first_ai_message
          = some startWelcomeMessage)
    ∧ ((startFormPOST (TokenResult.valid "u1") StartUpstream.fetchFailed 7).status = 200
      ∧ (startFormPOST (TokenResult.valid "u1") StartUpstream.fetchFailed 7).first_ai_message
          = some startFormFetchFallbackMessage
      ∧ startFormFetchFallbackMessage.text ≠ "") :=
  ⟨⟨by decide, by decide⟩, by decide, by decide, ⟨by decide, by decide⟩,
    (c3_amended_bootstrap_fallback { cv_id := "c1", job_role := "Engineer" } "u1"
      sampleCv [sampleCv] [] ["/app/uploads/f1_cv.pdf"] StartUpstream.okUnparseable 7
      ⟨by decide, by decide⟩ (by decide) (by decide) ⟨by decide, by decide⟩
      (Or.inl rfl)).1,
    (c3_amended_bootstrap_fallback { cv_id := "c1", job_role := "Engineer" } "u1"
      sampleCv [sampleCv] [] ["/app/uploads/f1_cv.pdf"] StartUpstream.okUnparseable 7
      ⟨by decide, by decide⟩ (by decide) (by decide) ⟨by decide, by decide⟩
      (Or.inl rfl)).2.1,
    (c3_amended_bootstrap_fallback { cv_id := "c1", job_role := "Engineer" } "u1"
      sampleCv [sampleCv] [] ["/app/uploads/f1_cv.pdf"] StartUpstream.okUnparseable 7
      ⟨by decide, by decide⟩ (by decide) (by decide) ⟨by decide, by decide⟩
      (Or.inl rfl)).2.2⟩

/-- Claim C4 (counterexample): a Session Bootstrap request through
/api/interview/start-with-saved-cv that succeeds (HTTP 200, here on the
fallback path where the upstream reply is missing both required fields)
returns the session identifier "fallback-7", yet the conversation store
after the call is unchanged and holds no record with that identifier —
the relay layer persists no Conversation record before returning. -/
theorem c4_counterexample :
    (startWithSavedCvPOST { cv_id := "c1", job_role := "Engineer" }
        (TokenResult.valid "u1") [sampleCv] [] ["/app/uploads/f1_cv.pdf"] true
        (StartUpstream.okFields none none) 7).resp.status = 200
    ∧ (startWithSavedCvPOST { cv_id := "c1", job_role := "Engineer" }
        (TokenResult.valid "u1") [sampleCv] [] ["/app/uploads/f1_cv.pdf"] true
        (StartUpstream.okFields none none) 7).resp.session_id = some ("fallback-" ++ toString 7)
    ∧ (startWithSavedCvPOST { cv_id := "c1", job_role := "Engineer" }
        (TokenResult.valid "u1") [sampleCv] [] ["/app/uploads/f1_cv.pdf"] true
        (StartUpstream.okFields none none) 7).convStore = []
    ∧ ¬ ∃ c ∈ ([] : List Conversation), c.session_id = "fallback-" ++ toString 7 := by
  refine ⟨by decide, by decide, by decide, by simp⟩

/-- Claim C4 (amended): the Next.js Session Bootstrap handler itself
never writes the conversation store — on every path, for every
authentication outcome, upstream outcome, and store state, the
conversation store after the call equals the store before it.
Persisting the Conversation record for a bootstrap is delegated to the
external AI backend, and on the locally synthesized fallback paths the
returned session identifier is never persisted at all (see the
counterexample). -/
theorem c4_amended_bootstrap_writes_no_conversation (req : StartRequest)
    (auth : TokenResult) (cvStore : List CVRecord) (convStore : List Conversation)
    (disk : List String) (cvSaveOk : Bool) (up : StartUpstream) (now : Nat) :
    (startWithSavedCvPOST req auth cvStore convStore disk cvSaveOk up now).convStore
      = convStore := by
  unfold startWithSavedCvPOST
  cases auth with
  | missing => rfl
  | invalid => rfl
  | valid userId =>
    by_cases h1 : req.cv_id = "" ∨ req.job_role = ""
    · simp [h1]
    · simp only [if_neg h1]
      cases hf : cvStore.find? (fun c => c.id == req.cv_id) with
      | none => rfl
      | some cv =>
        by_cases h2 : cv.userId ≠ userId
        · simp [h2]
        · simp only [if_neg h2]
          by_cases h3 : cvSaveOk = false
          · simp [h3]
          · simp only [if_neg h3]
            by_cases h4 : cv.filePath = "" ∨ cv.filePath ∉ disk
            · simp [h4]
            · simp only [if_neg h4]
              cases up with
              | fetchFailed => rfl
              | errorStatus s d => rfl
              | okUnparseable => rfl
              | okFields sid fam =>
                by_cases h5 : jsTruthyStr sid = false ∨ fam = none
                · simp [h5]
                · simp [h5]

/-- Claim C10: in the saved-CV Session Bootstrap, once the CV lookup and
ownership check pass and the record save succeeds, the CV store after
the call is exactly the input store with that one record's `lastUsed`
set to the current time and every other field (and every other record)
unchanged — for every disk state and every upstream outcome, including
the path that then fails with 404 because the file is missing on disk
and every later upstream failure. -/
theorem c10_lastUsed_saved_before_disk_check (req : StartRequest) (u : String)
    (cv : CVRecord) (cvStore : List CVRecord) (convStore : List Conversation)
    (disk : List String) (up : StartUpstream) (now : Nat)
    (hfields : req.cv_id ≠ "" ∧ req.job_role ≠ "")
    (hfind : cvStore.find? (fun c => c.id == req.cv_id) = some cv)
    (hown : cv.userId = u) :
    (startWithSavedCvPOST req (TokenResult.valid u) cvStore convStore disk true up now).cvStore
      = cvStore.map (fun c => if c.id == req.cv_id then { c with lastUsed := now } else c) := by
  have hne : ¬ (req.cv_id = "" ∨ req.job_role = "") := by
    rcases hfields with ⟨h1, h2⟩
    simp [h1, h2]
  have hne2 : ¬ cv.userId ≠ u := by simp [hown]
  unfold startWithSavedCvPOST
  simp only [if_neg hne, hfind, if_neg hne2]
  by_cases h4 : cv.filePath = "" ∨ cv.filePath ∉ disk
  · simp [h4]
  · simp only [if_neg h4]
    cases up with
    | fetchFailed => rfl
    | errorStatus s d => rfl
    | okUnparseable => rfl
    | okFields sid fam =>
      by_cases h5 : jsTruthyStr sid = false ∨ fam = none
      · simp [h5]
      · simp [h5]

/-- Claim C10 (witness): the theorem applied to CV "c1" of user "u1" at
time 9 on the path where the file is missing from disk (the call answers
404 yet `lastUsed` is durably advanced). -/
theorem c10_witness :
    (("c1" : String) ≠ "" ∧ ("Engineer" : String) ≠ "")
    ∧ [sampleCv].find? (fun c => c.id == "c1") = some sampleCv
    ∧ sampleCv.userId = "u1"
    ∧ (startWithSavedCvPOST { cv_id := "c1", job_role := "Engineer" }
        (TokenResult.valid "u1") [sampleCv] [] [] true StartUpstream.fetchFailed 9).cvStore
      = [sampleCv].map (fun c => if c.id == "c1" then { c with lastUsed := 9 } else c) :=
  ⟨⟨by decide, by decide⟩, by decide, by decide,
    c10_lastUsed_saved_before_disk_check { cv_id := "c1", job_role := "Engineer" } "u1"
      sampleCv [sampleCv] [] [] StartUpstream.fetchFailed 9
      ⟨by decide, by decide⟩ (by decide) (by decide)⟩

/-- Claim C7 (counterexample): when the upstream sessions endpoint
responds with a non-OK status other than 404 (here 500), the listing
handler propagates that status with an error body instead of answering
HTTP 200 with a sessions list — not every upstream failure is masked. -/
theorem c7_counterexample :
    (sessionsGET (TokenResult.valid "u1") [sampleConv] true
        (SessionsUpstream.errorStatus 500 "Internal Server Error")).status = 500
    ∧ (sessionsGET (TokenResult.valid "u1") [sampleConv] true
        (SessionsUpstream.errorStatus 500 "Internal Server Error")).sessions = none := by
  refine ⟨by decide, by decide⟩

/-- Claim C7 (amended): for an authenticated session-listing request, a
transport failure, an unparseable upstream body, an upstream 404, or a
storage failure all yield HTTP 200 with a sessions list (empty in the
worst case) — but an upstream non-OK status other than 404 is propagated
as an error (see the counterexample).  Whenever the list is produced
from the store, it consists of the requesting user's conversations,
sorted newest first, and capped at 10 entries. -/
theorem c7_amended_listing_fallback (u : String) (store : List Conversation)
    (dbOk : Bool) (up : SessionsUpstream) (d : String)
    (hup : up = SessionsUpstream.fetchFailed ∨ up = SessionsUpstream.okUnparseable
      ∨ up = SessionsUpstream.errorStatus 404 d) :
    (∃ l, sessionsGET (TokenResult.valid u) store dbOk up
        = { status := 200, sessions := some l, error := none }
      ∧ (l = [] ∨ l = dbSessions u store))
    ∧ (∀ s ∈ dbSessions u store, ∃ c, c ∈ store ∧ c.user_id = u ∧ s = toSummary c)
    ∧ (dbSessions u store).length ≤ 10
    ∧ (dbSessions u store).Pairwise (fun a b => b.created_at ≤ a.created_at) := by
  refine ⟨?_, ?_, ?_, ?_⟩
  · cases dbOk with
    | false =>
      rcases hup with rfl | rfl | rfl
      · exact ⟨[], by simp [sessionsGET], Or.inl rfl⟩
      · exact ⟨[], by simp [sessionsGET], Or.inl rfl⟩
      · exact ⟨[], by simp [sessionsGET], Or.inl rfl⟩
    | true =>
      rcases hup with rfl | rfl | rfl
      · exact ⟨dbSessions u store, by simp [sessionsGET], Or.inr rfl⟩
      · exact ⟨dbSessions u store, by simp [sessionsGET], Or.inr rfl⟩
      · exact ⟨dbSessions u store, by simp [sessionsGET], Or.inr rfl⟩
  · intro s hs
    rcases List.mem_map.mp hs with ⟨c, hc, rfl⟩
    have hc2 : c ∈ sortByKeyDesc (fun x : Conversation => x.createdAt)
        (store.filter (fun x => x.user_id == u)) := List.take_subset _ _ hc
    have hc3 := (mem_sortByKeyDesc _ c _).mp hc2
    rcases List.mem_filter.mp hc3 with ⟨hcs, hcu⟩
    exact ⟨c, hcs, by simpa [beq_iff_eq] using hcu, rfl⟩
  · calc (dbSessions u store).length
        = ((sortByKeyDesc (fun x : Conversation => x.createdAt)
            (store.filter (fun x => x.user_id == u))).take 10).length := List.length_map _ _
      _ ≤ 10 := List.length_take_le _ _
  · unfold dbSessions
    rw [List.pairwise_map]
    exact ((pairwise_sortByKeyDesc (fun x : Conversation => x.createdAt) _).sublist
      (List.take_sublist _ _))

/-- Claim C7 (witness): the amended theorem applied to user "u1" with a
one-conversation store on the upstream-404 branch. -/
theorem c7_amended_witness :
    ((∃ l, sessionsGET (TokenResult.valid "u1") [sampleConv] true
        (SessionsUpstream.errorStatus 404 "nf")
        = { status := 200, sessions := some l, error := none }
      ∧ (l = [] ∨ l = dbSessions "u1" [sampleConv]))
    ∧ (∀ s ∈ dbSessions "u1" [sampleConv],
        ∃ c, c ∈ [sampleConv] ∧ c.user_id = "u1" ∧ s = toSummary c)
    ∧ (dbSessions "u1" [sampleConv]).length ≤ 10
    ∧ (dbSessions "u1" [sampleConv]).Pairwise (fun a b => b.created_at ≤ a.created_at)) :=
  c7_amended_listing_fallback "u1" [sampleConv] true
    (SessionsUpstream.errorStatus 404 "nf") "nf" (Or.inr (Or.inr rfl))

/-- Listing membership for a freshly inserted CV record whose `lastUsed`
strictly dominates every other record of the same user: it sorts first
and therefore survives the 10-entry cap.  (Helper for the round-trip
claim.) -/
theorem cvsGET_contains_fresh_max (u : String) (store : List CVRecord) (r : CVRecord)
    (hu : r.userId = u)
    (hmax : ∀ c ∈ store, c.userId = u → c.lastUsed < r.lastUsed) :
    ∃ l, (cvsGET (TokenResult.valid u) (store ++ [r])).cvs = some l
      ∧ toCvEntry r ∈ l := by
  have hfilter : (store ++ [r]).filter (fun c => c.userId == u)
      = store.filter (fun c => c.userId == u) ++ [r] := by
    rw [List.filter_append]
    congr 1
    simp [List.filter, hu]
  have hmem : r ∈ store.filter (fun c => c.userId == u) ++ [r] := by simp
  have hmax' : ∀ x ∈ store.filter (fun c => c.userId == u) ++ [r],
      x = r ∨ x.lastUsed < r.lastUsed := by
    intro x hx
    rcases List.mem_append.mp hx with hx | hx
    · rcases List.mem_filter.mp hx with ⟨hxs, hxu⟩
      exact Or.inr (hmax x hxs (by simpa [beq_iff_eq] using hxu))
    · simp only [List.mem_singleton] at hx
      exact Or.inl hx
  rcases sortByKeyDesc_eq_cons_of_max (fun c => c.lastUsed) r _ hmem hmax' with ⟨t, ht⟩
  refine ⟨_, rfl, ?_⟩
  rw [hfilter, ht]
  simp

/-- Claim C8: a successful CV upload immediately followed by a CV listing
by the same user shows the uploaded CV with `filename` equal to the
originally uploaded file name, `size` equal to the uploaded byte count,
and `lastUsed` at least `uploadedAt`.  Hypotheses: the uploaded file has
a name, the generated record id is fresh, and every prior CV of the
user has `lastUsed` strictly before the upload instant (immediacy). -/
theorem c8_upload_list_roundtrip (u : String) (f : UploadedFile)
    (store : List CVRecord) (freshId fileId : String) (now : Nat)
    (extraction : Option String)
    (hname : f.name ≠ "")
    (hfresh : ∀ c ∈ store, c.id ≠ freshId)
    (hlast : ∀ c ∈ store, c.userId = u → c.lastUsed < now) :
    ∃ l e, (cvsGET (TokenResult.valid u)
        (saveCvPOST (TokenResult.valid u) (some f) store freshId fileId now extraction).2).cvs
      = some l
      ∧ e ∈ l ∧ e.filename = f.name ∧ e.size = f.size ∧ e.uploadedAt ≤ e.lastUsed := by
  have hstore : ∃ r' : CVRecord,
      (saveCvPOST (TokenResult.valid u) (some f) store freshId fileId now extraction).2
        = store ++ [r']
      ∧ r'.userId = u ∧ r'.originalName = f.name ∧ r'.fileSize = f.size
      ∧ r'.uploadedAt = now ∧ r'.lastUsed = now := by
    cases extraction with
    | none =>
      exact ⟨savedCvRecord u f freshId fileId now, rfl, rfl, rfl, rfl, rfl, rfl⟩
    | some txt =>
      by_cases htxt : txt ≠ ""
      · refine ⟨{ savedCvRecord u f freshId fileId now with extractedText := txt },
          ?_, rfl, rfl, rfl, rfl, rfl⟩
        have hlem := updateExtractedText_append_fresh store
          (savedCvRecord u f freshId fileId now) txt hfresh
        simp only [saveCvPOST, if_pos htxt]
        exact hlem
      · refine ⟨savedCvRecord u f freshId fileId now, ?_, rfl, rfl, rfl, rfl, rfl⟩
        simp [saveCvPOST, htxt]
  rcases hstore with ⟨r', heq, hu, hon, hfs, hupl, hlu⟩
  have hmax : ∀ c ∈ store, c.userId = u → c.lastUsed < r'.lastUsed := by
    rw [hlu]
    exact hlast
  rcases cvsGET_contains_fresh_max u store r' hu hmax with ⟨l, hl, hmem⟩
  refine ⟨l, toCvEntry r', by rw [heq]; exact hl, hmem, ?_, ?_, ?_⟩
  · simp [toCvEntry, hon, hname]
  · simp [toCvEntry, hfs]
  · simp [toCvEntry, hupl, hlu]

/-- Claim C8 (witness): the theorem applied to user "u1" uploading
"cv.pdf" (100 bytes) into an empty store at time 5, with no extraction
reply. -/
theorem c8_witness :
    ("cv.pdf" : String) ≠ ""
    ∧ (∀ c ∈ ([] : List CVRecord), c.id ≠ "id1")
    ∧ (∀ c ∈ ([] : List CVRecord), c.userId = "u1" → c.lastUsed < 5)
    ∧ ∃ l e, (cvsGET (TokenResult.valid "u1")
        (saveCvPOST (TokenResult.valid "u1")
          (some { name := "cv.pdf", size := 100, contentType := "application/pdf" })
          [] "id1" "f1" 5 none).2).cvs = some l
      ∧ e ∈ l ∧ e.filename = "cv.pdf" ∧ e.size = 100 ∧ e.uploadedAt ≤ e.lastUsed :=
  ⟨by decide, by simp, by simp,
    c8_upload_list_roundtrip "u1" { name := "cv.pdf", size := 100, contentType := "application/pdf" }
      [] "id1" "f1" 5 none (by decide) (by simp) (by simp)⟩

/-- Claim C9: the single-session Get handler queries the store by session
identifier and requesting user identifier together, so its response is
invariant under any change confined to conversations owned by other
users: two stores whose sublists of the requesting user's conversations
agree produce identical responses (for the same upstream behavior),
hence a conversation owned by another user is never returned and never
distinguishable from a nonexistent one. -/
theorem c9_other_users_noninterference (id u : String) (s1 s2 : List Conversation)
    (dbOk : Bool) (up : SessionGetUpstream)
    (h : s1.filter (fun c => c.user_id == u) = s2.filter (fun c => c.user_id == u)) :
    sessionGetGET id (TokenResult.valid u) s1 dbOk up
      = sessionGetGET id (TokenResult.valid u) s2 dbOk up := by
  have hp : ∀ c : Conversation,
      (c.session_id == id && c.user_id == u) = true → (c.user_id == u) = true :=
    fun c hc => by
      simp only [Bool.and_eq_true] at hc
      exact hc.2
  have e : s1.find? (fun c => c.session_id == id && c.user_id == u)
      = s2.find? (fun c => c.session_id == id && c.user_id == u) := by
    rw [find?_filter_of_imp _ _ s1 hp, h, ← find?_filter_of_imp _ _ s2 hp]
  cases dbOk with
  | false => rfl
  | true => simp [sessionGetGET, e]

/-- Claim C9 (witness): the theorem applied to stores that differ only in
a conversation of user "u2": user "u1" receives the same response from
both. -/
theorem c9_witness :
    ([{ session_id := "sX", user_id := "u2", job_role := "QA", cv_text := "c",
        messages := [], createdAt := 3, finished := false }] : List Conversation).filter
        (fun c => c.user_id == "u1")
      = ([] : List Conversation).filter (fun c => c.user_id == "u1")
    ∧ sessionGetGET "sX" (TokenResult.valid "u1")
        [{ session_id := "sX", user_id := "u2", job_role := "QA", cv_text := "c",
           messages := [], createdAt := 3, finished := false }] true
        SessionGetUpstream.fetchFailed
      = sessionGetGET "sX" (TokenResult.valid "u1") [] true
        SessionGetUpstream.fetchFailed :=
  ⟨by decide,
    c9_other_users_noninterference "sX" "u1"
      [{ session_id := "sX", user_id := "u2", job_role := "QA", cv_text := "c",
         messages := [], createdAt := 3, finished := false }] [] true
      SessionGetUpstream.fetchFailed (by decide)⟩

end FutureForceAI
